import Mathlib

/-!
Shallow embedding of the event-booking backend's events router
(src/backend/routes/events.js) over a relational store holding the
`events`, `bookings` and `users` tables, together with theorems about
the router's behaviour.
-/

namespace EventsApi

/-- A MySQL DATETIME value, split into its calendar-date component
(`day`, canonical `YYYY-MM-DD` form) and its time-of-day component, so
that the SQL `DATE()` function is projection onto `day`.  On canonical
strings, chronological order coincides with lexicographic order. -/
structure SqlDateTime where
  day : String
  time : String
deriving DecidableEq

/-- A row of the `events` table (columns as in the INSERT statement of
the create handler).  `available_seats` is the stored column written at
creation time; the listing route recomputes availability instead of
reading it. -/
structure Event where
  event_id : Nat
  title : String
  description : String
  date : SqlDateTime
  location : String
  price : Int
  image_url : String
  mode : String
  meeting_link : String
  capacity : Int
  organizer_id : Nat
  available_seats : Int
deriving DecidableEq

/-- A row of the `bookings` table. -/
structure Booking where
  booking_id : Nat
  event_id : Nat
  user_id : Nat
  booking_date : String
  status : String
deriving DecidableEq

/-- A row of the `users` table. -/
structure User where
  user_id : Nat
  name : String
  email : String
  role : String
deriving DecidableEq

/-- The relational store. -/
structure Store where
  events : List Event
  bookings : List Booking
  users : List User
deriving DecidableEq

/-- The identity attached to the request by the `authenticateToken`
middleware (the decoded JWT payload: at least user_id and role). -/
structure AuthUser where
  user_id : Nat
  role : String
deriving DecidableEq

/-- A listing row: `SELECT e.*` plus the computed alias
`available_seats`; in the resulting JSON object the alias overwrites
the stored column of the same name. -/
structure ListedEvent where
  ev : Event
  available_seats : Int
deriving DecidableEq

/-- One attendee-roster row: `u.name, u.email, b.booking_date, b.status`. -/
structure AttendeeRow where
  name : String
  email : String
  booking_date : String
  status : String
deriving DecidableEq

/-- The JSON bodies this router can send. -/
inductive ResponseBody where
  | errMsg (msg : String)
  | eventRows (rows : List ListedEvent)
  | eventRow (e : Event)
  | eventsRaw (rows : List Event)
  | attendeesPayload (ev : Event) (attendees : List AttendeeRow) (total_revenue : Int)
  | createdMsg (message : String) (eventId : Nat)
  | deletedMsg (message : String)
deriving DecidableEq

/-- An HTTP response: status code and JSON body. -/
structure Response where
  status : Nat
  body : ResponseBody
deriving DecidableEq

/-- Value of the longest leading digit run of a character list. -/
def digitsPrefixVal (cs : List Char) : Nat :=
  (cs.takeWhile Char.isDigit).foldl (fun n c => n * 10 + (c.toNat - 48)) 0

/-- MySQL coercion of a string to a natural number, as applied when a
string parameter is compared with a numeric column: the longest numeric
prefix, and 0 when there is none (e.g. "my-events" coerces to 0). -/
def mysqlStrToNat (s : String) : Nat :=
  digitsPrefixVal s.data

/-- MySQL coercion of a string to an integer (sign-aware). -/
def mysqlStrToInt (s : String) : Int :=
  match s.data with
  | '-' :: rest => -((digitsPrefixVal rest : Nat) : Int)
  | _ => (mysqlStrToNat s : Int)

/-- JavaScript truthiness test for an optional string field (`!x`):
falsy exactly when the field is absent or is the empty string. -/
def strFalsy : Option String → Bool
  | none => true
  | some s => s == ""

/-- Substring containment on character lists, for SQL LIKE with a
`%...%` pattern. -/
def charsContain : List Char → List Char → Bool
  | _, [] => true
  | [], _ :: _ => false
  | h :: t, p :: ps => List.isPrefixOf (p :: ps) (h :: t) || charsContain t (p :: ps)

/-- ASCII lower-casing of one character. -/
def asciiLowerChar (c : Char) : Char :=
  if c.toNat ≥ 65 && c.toNat ≤ 90 then Char.ofNat (c.toNat + 32) else c

/-- `e.location LIKE '%loc%'` under MySQL's default case-insensitive
collation: case-insensitive substring containment.  (Wildcards inside
the parameter itself are not modelled; no claim depends on them.) -/
def likeContains (hay pat : String) : Bool :=
  charsContain (hay.data.map asciiLowerChar) (pat.data.map asciiLowerChar)

/-- JavaScript blank test `x.trim() === ""` (together with falsiness of
the empty string): the value consists of whitespace only. -/
def jsBlank (s : String) : Bool :=
  s.data.all Char.isWhitespace

/-- Number of `bookings` rows referencing an event id:
`COUNT(b.booking_id)` over that event's LEFT JOIN group. -/
def bookingCount (store : Store) (eid : Nat) : Nat :=
  (store.bookings.filter (fun b => b.event_id == eid)).length

/-- The computed alias `(e.capacity - COUNT(b.booking_id)) AS available_seats`. -/
def availableSeats (store : Store) (e : Event) : Int :=
  e.capacity - (bookingCount store e.event_id : Int)

/-- Chronological comparison of DATETIME values (lexicographic on the
canonical strings), used for ORDER BY e.date. -/
def dateTimeLeb (a b : SqlDateTime) : Bool :=
  decide (a.day < b.day) || (a.day == b.day && !decide (b.time < a.time))

/-- ORDER BY e.date ASC. -/
def dateAsc (a b : Event) : Prop := dateTimeLeb a.date b.date = true

instance : DecidableRel dateAsc :=
  fun a b => inferInstanceAs (Decidable (dateTimeLeb a.date b.date = true))

/-- ORDER BY date DESC. -/
def dateDesc (a b : Event) : Prop := dateTimeLeb b.date a.date = true

instance : DecidableRel dateDesc :=
  fun a b => inferInstanceAs (Decidable (dateTimeLeb b.date a.date = true))

/-- The WHERE clause of the public listing: the location fragment is
appended only when the parameter is present and non-blank, and likewise
the date fragment (`DATE(e.date) = ?`). -/
def listKeep (location dateFilter : Option String) (e : Event) : Bool :=
  (match location with
   | none => true
   | some s => if jsBlank s then true else likeContains e.location s)
  &&
  (match dateFilter with
   | none => true
   | some s => if jsBlank s then true else e.date.day == s)

/-- Rows returned by GET /events: WHERE filter, GROUP BY e.event_id
with the booking count (event_id is the primary key, so each event row
forms its own group), ORDER BY e.date ASC, and the computed
available_seats alias. -/
def listEvents (location dateFilter : Option String) (store : Store) : List ListedEvent :=
  (List.insertionSort dateAsc (store.events.filter (listKeep location dateFilter))).map
    (fun e => ⟨e, availableSeats store e⟩)

/-- GET /events handler (success path). -/
def handleList (location dateFilter : Option String) (store : Store) : Response :=
  ⟨200, .eventRows (listEvents location dateFilter store)⟩

/-- GET /events/:id handler (success path): the raw stored row, 404
when no row matches.  The route parameter string is coerced by MySQL
when compared with the numeric event_id column. -/
def handleGetSingle (idStr : String) (store : Store) : Response :=
  match store.events.filter (fun e => e.event_id == mysqlStrToNat idStr) with
  | [] => ⟨404, .errMsg "Event not found"⟩
  | e :: _ => ⟨200, .eventRow e⟩

/-- GET /events/my-events handler (success path): raw rows owned by the
caller, ORDER BY date DESC. -/
def handleMyEvents (uid : Nat) (store : Store) : Response :=
  ⟨200, .eventsRaw
    (List.insertionSort dateDesc (store.events.filter (fun e => e.organizer_id == uid)))⟩

/-- Bookings of one event. -/
def eventBookings (store : Store) (eid : Nat) : List Booking :=
  store.bookings.filter (fun b => b.event_id == eid)

/-- The roster join: bookings of the event INNER JOINed to users on
user_id (user_id is the users primary key, so at most one row matches a
booking). -/
def attendeesRows (store : Store) (eid : Nat) : List AttendeeRow :=
  (eventBookings store eid).filterMap (fun b =>
    (store.users.find? (fun u => u.user_id == b.user_id)).map
      (fun u => ⟨u.name, u.email, b.booking_date, b.status⟩))

/-- GET /events/:id/attendees handler (success path): the ownership
check is scoped by event id and organizer id in a single query and
yields a single collapsed 403 message when it finds nothing; on success
the roster plus total_revenue = attendees.length * event.price. -/
def handleAttendees (u : AuthUser) (idStr : String) (store : Store) : Response :=
  match store.events.filter
      (fun e => e.event_id == mysqlStrToNat idStr && e.organizer_id == u.user_id) with
  | [] => ⟨403, .errMsg "Unauthorized or Event not found"⟩
  | e :: _ =>
    ⟨200, .attendeesPayload e (attendeesRows store (mysqlStrToNat idStr))
        (((attendeesRows store (mysqlStrToNat idStr)).length : Int) * e.price)⟩

/-- The multipart body of POST /events; multer delivers each present
field as a string. -/
structure CreateBody where
  title : Option String
  description : Option String
  date : Option String
  location : Option String
  price : Option String
  mode : Option String
  meeting_link : Option String
  capacity : Option String
deriving DecidableEq

/-- Split a character list at its first blank. -/
def breakAtSpace : List Char → List Char × Option (List Char)
  | [] => ([], none)
  | c :: cs =>
    if c == ' ' then ([], some cs)
    else
      let r := breakAtSpace cs
      (c :: r.1, r.2)

/-- MySQL parse of a DATETIME literal: date part before the blank, time
part after it (midnight when absent). -/
def parseDateTime (s : String) : SqlDateTime :=
  match breakAtSpace s.data with
  | (d, some t) => ⟨String.mk d, String.mk (breakAtSpace t).1⟩
  | (d, none) => ⟨String.mk d, "00:00:00"⟩

/-- AUTO_INCREMENT id for the next inserted event row. -/
def nextEventId (store : Store) : Nat :=
  store.events.foldr (fun e m => max e.event_id m) 0 + 1

/-- The string stored into a nullable text column (NULL modelled as ""). -/
def optStr (o : Option String) : String := o.getD ""

/-- The row inserted by POST /events: image URL synthesized from the
request's protocol and host when a file was uploaded, fallback defaults
`capacity || 100`, `mode || 'physical'`, `price || 0`, and the stored
available_seats initialized to the same final capacity. -/
def createdEvent (u : AuthUser) (body : CreateBody) (file : Option String)
    (protocol host : String) (store : Store) : Event :=
  let imageUrl :=
    match file with
    | none => "https://via.placeholder.com/300"
    | some fname => protocol ++ "://" ++ host ++ "/uploads/" ++ fname
  let finalCapacity : Int :=
    if strFalsy body.capacity then 100 else mysqlStrToInt (optStr body.capacity)
  let finalMode : String :=
    if strFalsy body.mode then "physical" else optStr body.mode
  let finalPrice : Int :=
    if strFalsy body.price then 0 else mysqlStrToInt (optStr body.price)
  { event_id := nextEventId store
    title := optStr body.title
    description := optStr body.description
    date := parseDateTime (optStr body.date)
    location := optStr body.location
    price := finalPrice
    image_url := imageUrl
    mode := finalMode
    meeting_link := optStr body.meeting_link
    capacity := finalCapacity
    organizer_id := u.user_id
    available_seats := finalCapacity }

/-- POST /events handler: the organizer-role check is commented out in
the source, so any authenticated identity may create.  Returns the
response together with the store after the INSERT. -/
def handleCreate (u : AuthUser) (body : CreateBody) (file : Option String)
    (protocol host : String) (store : Store) : Response × Store :=
  if strFalsy body.title || strFalsy body.date then
    (⟨400, .errMsg "Title and Date are required"⟩, store)
  else
    (⟨201, .createdMsg "✅ Event created successfully" (nextEventId store)⟩,
     { store with events := store.events ++ [createdEvent u body file protocol host store] })

/-- DELETE /events/:id row predicate: an admin deletes by id alone,
anyone else only rows they own. -/
def deleteHit (u : AuthUser) (eid : Nat) (e : Event) : Bool :=
  if u.role == "admin" then e.event_id == eid
  else e.event_id == eid && e.organizer_id == u.user_id

/-- DELETE /events/:id handler: 404 with the collapsed
not-found/unauthorized message when the DELETE affects no row. -/
def handleDelete (u : AuthUser) (idStr : String) (store : Store) : Response × Store :=
  if (store.events.filter (fun e => !(deleteHit u (mysqlStrToNat idStr) e))).length
      == store.events.length then
    (⟨404, .errMsg "Event not found or unauthorized"⟩, store)
  else
    (⟨200, .deletedMsg "🗑️ Event deleted successfully"⟩,
     { store with events :=
        (store.events.filter (fun e => !(deleteHit u (mysqlStrToNat idStr) e))) })

/-- HTTP methods used by the router. -/
inductive Method where
  | GET
  | POST
  | DELETE
deriving DecidableEq

/-- The six handlers, in their registration order in the source file. -/
inductive RouteId where
  | list
  | single
  | myEvents
  | attendees
  | create
  | delete
deriving DecidableEq

/-- One registered route: method, path pattern (a ":name" segment is a
parameter matching any one path segment) and handler. -/
structure Route where
  method : Method
  pattern : List String
  handler : RouteId
deriving DecidableEq

/-- The route table in registration order: note that "/:id" is
registered before "/my-events". -/
def routes : List Route :=
  [⟨.GET, [], .list⟩,
   ⟨.GET, [":id"], .single⟩,
   ⟨.GET, ["my-events"], .myEvents⟩,
   ⟨.GET, [":id", "attendees"], .attendees⟩,
   ⟨.POST, [], .create⟩,
   ⟨.DELETE, [":id"], .delete⟩]

/-- One pattern segment against one path segment: a segment whose first
character is ':' is a parameter and matches anything. -/
def segMatches (pat seg : String) : Bool :=
  (match pat.data with
   | c :: _ => c == ':'
   | [] => false) || pat == seg

/-- Express matching: same method, same segment count, all segments
match. -/
def routeMatches (r : Route) (m : Method) (path : List String) : Bool :=
  r.method == m && r.pattern.length == path.length
    && (r.pattern.zip path).all (fun p => segMatches p.1 p.2)

/-- Express dispatch: the first registered route that matches wins. -/
def dispatch (m : Method) (path : List String) : Option RouteId :=
  (routes.find? (fun r => routeMatches r m path)).map (fun r => r.handler)

/-- Execution of a GET request through the router (success paths):
dispatch, then the authentication gate for the protected routes, then
the handler, with the ":id" parameter taken from the first path
segment. -/
def routeGet (store : Store) (auth : Option AuthUser) (path : List String)
    (location dateFilter : Option String) : Response :=
  match dispatch .GET path with
  | some .list => handleList location dateFilter store
  | some .single => handleGetSingle (path.headD "") store
  | some .myEvents =>
    match auth with
    | none => ⟨401, .errMsg "Missing token"⟩
    | some u => handleMyEvents u.user_id store
  | some .attendees =>
    match auth with
    | none => ⟨401, .errMsg "Missing token"⟩
    | some u => handleAttendees u (path.headD "") store
  | _ => ⟨404, .errMsg "Cannot GET"⟩

/-- The catch block of each handler, applied to the message carried by
a store failure thrown inside the try block. -/
def catchResponse : RouteId → String → Response
  | .list, _ => ⟨500, .errMsg "Failed to fetch events"⟩
  | .single, m => ⟨500, .errMsg m⟩
  | .myEvents, m => ⟨500, .errMsg m⟩
  | .attendees, _ => ⟨500, .errMsg "Server error fetching attendees"⟩
  | .create, _ => ⟨500, .errMsg "Server error creating event"⟩
  | .delete, m => ⟨500, .errMsg m⟩

/-- Demo fixture: an organizer-owned event. -/
def demoEvent : Event :=
  { event_id := 1, title := "Launch", description := "Kickoff",
    date := ⟨"2026-05-01", "18:00:00"⟩, location := "Hyderabad", price := 10,
    image_url := "https://via.placeholder.com/300", mode := "physical",
    meeting_link := "", capacity := 2, organizer_id := 1, available_seats := 2 }

/-- Demo fixture: a store holding just `demoEvent`. -/
def demoStore : Store := ⟨[demoEvent], [], []⟩

/-- Claim C2 (code bug): GET /events/my-events never reaches the
my-events handler.  The "/:id" route is registered first and its ":id"
parameter matches the literal segment "my-events", so the request runs
the single-event lookup with id "my-events" (which MySQL coerces to 0)
and answers 404 — even for an authenticated organizer who owns events —
while the shadowed my-events handler would have returned the caller's
rows. -/
theorem my_events_route_shadowed_by_single_lookup :
  dispatch .GET ["my-events"] = some .single
  ∧ routeGet demoStore (some ⟨1, "organizer"⟩) ["my-events"] none none
      = ⟨404, .errMsg "Event not found"⟩
  ∧ handleMyEvents 1 demoStore = ⟨200, .eventsRaw [demoEvent]⟩ := by
  refine ⟨by decide, by decide, by decide⟩

/-- Claim C9 counterexample: the single-event lookup's catch block
echoes the store failure's own message, so two distinct store failures
produce distinguishable responses — the message is not generic. -/
theorem single_lookup_catch_echoes_store_message :
  catchResponse .single "connect ECONNREFUSED 127.0.0.1:3306"
    ≠ catchResponse .single "ER_NO_SUCH_TABLE: events" := by decide

/-- Claim C9 amended: every store failure is caught and reported with
status 500; the listing, attendee-roster and creation handlers use a
fixed generic message, while the single-event lookup, my-events and
delete handlers expose the underlying failure's message verbatim. -/
theorem store_failures_reported_internal_per_route (rid : RouteId) (m : String) :
  (catchResponse rid m).status = 500
  ∧ ((rid = .list ∨ rid = .attendees ∨ rid = .create) →
      (catchResponse rid m).body = (catchResponse rid "other failure").body)
  ∧ ((rid = .single ∨ rid = .myEvents ∨ rid = .delete) →
      (catchResponse rid m).body = .errMsg m) := by
  cases rid <;> simp [catchResponse]

/-- Witness for the amended C9 statement at the delete route and a
concrete failure message. -/
theorem store_failures_reported_internal_per_route_witness :
  (catchResponse .delete "boom").status = 500
  ∧ (catchResponse .delete "boom").body = .errMsg "boom" :=
  ⟨(store_failures_reported_internal_per_route .delete "boom").1,
   (store_failures_reported_internal_per_route .delete "boom").2.2 (Or.inr (Or.inr rfl))⟩

/-- Claim C3: when the caller is not the organizer of any event carrying
the requested id, the attendee-roster operation answers the one collapsed
403 response; in particular its answer is identical between a store where
the event does not exist and a store where it exists but belongs to
someone else. -/
theorem attendees_forbidden_indistinguishable (u : AuthUser) (idStr : String) (s1 s2 : Store)
    (h1 : ∀ e ∈ s1.events, ¬(e.event_id = mysqlStrToNat idStr ∧ e.organizer_id = u.user_id))
    (h2 : ∀ e ∈ s2.events, ¬(e.event_id = mysqlStrToNat idStr ∧ e.organizer_id = u.user_id)) :
    handleAttendees u idStr s1 = ⟨403, .errMsg "Unauthorized or Event not found"⟩
    ∧ handleAttendees u idStr s1 = handleAttendees u idStr s2 := by
  have hf : ∀ s : Store,
      (∀ e ∈ s.events, ¬(e.event_id = mysqlStrToNat idStr ∧ e.organizer_id = u.user_id)) →
      s.events.filter
        (fun e => e.event_id == mysqlStrToNat idStr && e.organizer_id == u.user_id) = [] := by
    intro s hs
    rw [List.filter_eq_nil_iff]
    intro e he hc
    simp only [Bool.and_eq_true, beq_iff_eq] at hc
    exact hs e he hc
  have e1 := hf s1 h1
  have e2 := hf s2 h2
  constructor
  · simp only [handleAttendees, e1]
  · simp only [handleAttendees, e1, e2]

/-- Witness for C3: a caller with user_id 2 requesting event 1, against
the demo store (owned by organizer 1) and the empty store. -/
theorem attendees_forbidden_indistinguishable_witness :
  handleAttendees ⟨2, "organizer"⟩ "1" demoStore
      = ⟨403, .errMsg "Unauthorized or Event not found"⟩
  ∧ handleAttendees ⟨2, "organizer"⟩ "1" demoStore
      = handleAttendees ⟨2, "organizer"⟩ "1" ⟨[], [], []⟩ :=
  attendees_forbidden_indistinguishable ⟨2, "organizer"⟩ "1" demoStore ⟨[], [], []⟩
    (by decide) (by decide)

/-- Claim C4: a creation request whose title or date field is missing is
rejected with the 400 response and leaves the store untouched. -/
theorem create_missing_title_or_date_rejected (u : AuthUser) (body : CreateBody)
    (file : Option String) (protocol host : String) (store : Store)
    (h : body.title = none ∨ body.date = none) :
    handleCreate u body file protocol host store
      = (⟨400, .errMsg "Title and Date are required"⟩, store) := by
  have hc : (strFalsy body.title || strFalsy body.date) = true := by
    cases h with
    | inl h => simp [strFalsy, h]
    | inr h => simp [strFalsy, h]
  simp [handleCreate, hc]

/-- Witness for C4: a body with a date but no title is rejected and the
empty store stays empty. -/
theorem create_missing_title_or_date_rejected_witness :
  handleCreate ⟨1, "organizer"⟩
      ⟨none, none, some "2026-05-01", none, none, none, none, none⟩
      none "https" "app.example.com" ⟨[], [], []⟩
    = (⟨400, .errMsg "Title and Date are required"⟩, ⟨[], [], []⟩) :=
  create_missing_title_or_date_rejected ⟨1, "organizer"⟩
    ⟨none, none, some "2026-05-01", none, none, none, none, none⟩
    none "https" "app.example.com" ⟨[], [], []⟩ (Or.inl rfl)

/-- Claim C1: in the unfiltered public listing every stored event
appears, augmented with available_seats equal to capacity minus the
number of booking rows referencing it; zero bookings leave
available_seats = capacity, and overbooking drives it negative, with no
clamping and no error. -/
theorem listing_available_seats (store : Store) (e : Event) (he : e ∈ store.events) :
    (⟨e, availableSeats store e⟩ : ListedEvent) ∈ listEvents none none store
    ∧ availableSeats store e = e.capacity - (bookingCount store e.event_id : Int)
    ∧ (bookingCount store e.event_id = 0 → availableSeats store e = e.capacity)
    ∧ ((e.capacity : Int) < (bookingCount store e.event_id : Int) →
        availableSeats store e < 0) := by
  refine ⟨?_, rfl, ?_, ?_⟩
  · have hfe : store.events.filter (listKeep none none) = store.events :=
      List.filter_eq_self.mpr (fun a _ => rfl)
    simp only [listEvents, hfe]
    exact List.mem_map_of_mem _ ((List.mem_insertionSort dateAsc).mpr he)
  · intro h
    simp [availableSeats, h]
  · intro h
    unfold availableSeats
    omega

/-- Demo fixture: an overbooked event (capacity 2, three bookings). -/
def wOverEvent : Event :=
  { event_id := 1, title := "Full house", description := "Sold beyond capacity",
    date := ⟨"2026-06-01", "09:00:00"⟩, location := "Pune", price := 10,
    image_url := "https://via.placeholder.com/300", mode := "physical",
    meeting_link := "", capacity := 2, organizer_id := 1, available_seats := 2 }

/-- Demo fixture: a store in which `wOverEvent` is overbooked, including
one cancelled-status booking. -/
def wStore : Store :=
  ⟨[wOverEvent],
   [⟨1, 1, 2, "2026-05-01", "confirmed"⟩, ⟨2, 1, 3, "2026-05-02", "confirmed"⟩,
    ⟨3, 1, 4, "2026-05-03", "cancelled"⟩],
   [⟨2, "Asha", "asha@example.com", "attendee"⟩]⟩

/-- Witness for C1: the overbooked demo event appears in the listing and
its computed availability is negative. -/
theorem listing_available_seats_witness :
  (⟨wOverEvent, availableSeats wStore wOverEvent⟩ : ListedEvent) ∈ listEvents none none wStore
  ∧ availableSeats wStore wOverEvent < 0 :=
  ⟨(listing_available_seats wStore wOverEvent (by decide)).1,
   (listing_available_seats wStore wOverEvent (by decide)).2.2.2 (by decide)⟩

/-- Claim C6: a creation request carrying a title and a date inserts one
row whose capacity defaults to 100, mode to "physical" and price to 0
whenever the respective field is absent or falsy, and whose stored
available_seats equals its stored capacity. -/
theorem create_defaults_and_available_seats (u : AuthUser) (body : CreateBody)
    (file : Option String) (protocol host : String) (store : Store)
    (ht : strFalsy body.title = false) (hd : strFalsy body.date = false) :
    (handleCreate u body file protocol host store).2.events
        = store.events ++ [createdEvent u body file protocol host store]
    ∧ (handleCreate u body file protocol host store).1.status = 201
    ∧ (strFalsy body.capacity = true →
        (createdEvent u body file protocol host store).capacity = 100)
    ∧ (strFalsy body.mode = true →
        (createdEvent u body file protocol host store).mode = "physical")
    ∧ (strFalsy body.price = true →
        (createdEvent u body file protocol host store).price = 0)
    ∧ (createdEvent u body file protocol host store).available_seats
        = (createdEvent u body file protocol host store).capacity := by
  have hc : (strFalsy body.title || strFalsy body.date) = false := by
    rw [ht, hd]; rfl
  refine ⟨by simp [handleCreate, hc], by simp [handleCreate, hc], ?_, ?_, ?_, rfl⟩
  · intro h
    simp [createdEvent, h]
  · intro h
    simp [createdEvent, h]
  · intro h
    simp [createdEvent, h]

/-- Demo fixture: a creation body with only title, date and location. -/
def wCreateBody : CreateBody :=
  ⟨some "Meetup", none, some "2026-07-04 09:30:00", some "Pune",
   none, none, none, none⟩

/-- Witness for C6 on a concrete sparse body: status 201 and the
defaulted columns. -/
theorem create_defaults_and_available_seats_witness :
  (handleCreate ⟨1, "organizer"⟩ wCreateBody none "https" "app.example.com"
      ⟨[], [], []⟩).1.status = 201
  ∧ (createdEvent ⟨1, "organizer"⟩ wCreateBody none "https" "app.example.com"
      ⟨[], [], []⟩).capacity = 100
  ∧ (createdEvent ⟨1, "organizer"⟩ wCreateBody none "https" "app.example.com"
      ⟨[], [], []⟩).mode = "physical"
  ∧ (createdEvent ⟨1, "organizer"⟩ wCreateBody none "https" "app.example.com"
      ⟨[], [], []⟩).price = 0
  ∧ (createdEvent ⟨1, "organizer"⟩ wCreateBody none "https" "app.example.com"
      ⟨[], [], []⟩).available_seats
      = (createdEvent ⟨1, "organizer"⟩ wCreateBody none "https" "app.example.com"
      ⟨[], [], []⟩).capacity :=
  let h := create_defaults_and_available_seats ⟨1, "organizer"⟩ wCreateBody none
    "https" "app.example.com" ⟨[], [], []⟩ (by decide) (by decide)
  ⟨h.2.1, h.2.2.1 (by decide), h.2.2.2.1 (by decide), h.2.2.2.2.1 (by decide), h.2.2.2.2.2⟩

/-- Claim C7: a non-blank date filter keeps exactly the events whose
calendar-date component equals the parameter, whatever their
time-of-day; a blank filter is the identity on the listing. -/
theorem date_filter_matches_calendar_day (store : Store) (d s : String) (e : Event)
    (hd : jsBlank d = false) (hs : jsBlank s = true) :
    (e ∈ store.events → e.date.day = d →
       (⟨e, availableSeats store e⟩ : ListedEvent) ∈ listEvents none (some d) store)
    ∧ (∀ r ∈ listEvents none (some d) store, r.ev ∈ store.events ∧ r.ev.date.day = d)
    ∧ listEvents none (some s) store = listEvents none none store := by
  refine ⟨?_, ?_, ?_⟩
  · intro he hday
    have hkeep : listKeep none (some d) e = true := by
      simp [listKeep, hd, hday]
    simp only [listEvents]
    exact List.mem_map_of_mem _
      ((List.mem_insertionSort dateAsc).mpr (List.mem_filter.mpr ⟨he, hkeep⟩))
  · intro r hr
    simp only [listEvents, List.mem_map] at hr
    obtain ⟨e', he', rfl⟩ := hr
    have h2 := List.mem_filter.mp ((List.mem_insertionSort dateAsc).mp he')
    refine ⟨h2.1, ?_⟩
    have h3 := h2.2
    simp [listKeep, hd] at h3
    exact h3
  · have hk : listKeep none (some s) = listKeep none none := by
      funext x
      simp [listKeep, hs]
    simp only [listEvents, hk]

/-- Witness for C7: filtering the demo store by the demo event's day
keeps it, and a whitespace-only filter equals no filter. -/
theorem date_filter_matches_calendar_day_witness :
  (⟨wOverEvent, availableSeats wStore wOverEvent⟩ : ListedEvent)
      ∈ listEvents none (some "2026-06-01") wStore
  ∧ listEvents none (some " ") wStore = listEvents none none wStore :=
  let h := date_filter_matches_calendar_day wStore "2026-06-01" " " wOverEvent
    (by decide) (by decide)
  ⟨h.1 (by decide) rfl, h.2.2⟩

lemma handleDelete_removes (u : AuthUser) (idStr : String) (store : Store) (e : Event)
    (he : e ∈ store.events)
    (hhit : deleteHit u (mysqlStrToNat idStr) e = true)
    (honly : ∀ x ∈ store.events, x ≠ e → deleteHit u (mysqlStrToNat idStr) x = false) :
    (handleDelete u idStr store).1.status = 200
    ∧ e ∉ (handleDelete u idStr store).2.events
    ∧ (∀ x ∈ store.events, x ≠ e → x ∈ (handleDelete u idStr store).2.events)
    ∧ (∀ x ∈ (handleDelete u idStr store).2.events, x ∈ store.events) := by
  have hlen : ((store.events.filter
      (fun x => !(deleteHit u (mysqlStrToNat idStr) x))).length
      == store.events.length) = false := by
    apply beq_eq_false_iff_ne.mpr
    intro hlen
    have heq := List.Sublist.eq_of_length (List.filter_sublist store.events) hlen
    have hmem : e ∈ store.events.filter
        (fun x => !(deleteHit u (mysqlStrToNat idStr) x)) := by
      rw [heq]
      exact he
    have hbad := (List.mem_filter.mp hmem).2
    rw [hhit] at hbad
    simp at hbad
  have hres : handleDelete u idStr store
      = (⟨200, .deletedMsg "🗑️ Event deleted successfully"⟩,
         { store with events := (store.events.filter
            (fun x => !(deleteHit u (mysqlStrToNat idStr) x))) }) := by
    unfold handleDelete
    rw [hlen]
    simp
  refine ⟨by rw [hres], ?_, ?_, ?_⟩
  · rw [hres]
    simp only [List.mem_filter]
    rintro ⟨-, hbad⟩
    rw [hhit] at hbad
    simp at hbad
  · intro x hx hne
    rw [hres]
    simp only [List.mem_filter]
    exact ⟨hx, by rw [honly x hx hne]; rfl⟩
  · intro x hx
    rw [hres] at hx
    exact (List.mem_filter.mp hx).1

/-- Claim C5: the delete operation succeeds and removes exactly the
targeted row for the owning organizer (whatever their role) and for any
admin regardless of ownership; when no row matches the caller's
authority it answers the one collapsed 404 message and leaves the store
untouched. -/
theorem delete_owner_admin_authorization (store : Store) (u : AuthUser) (e : Event)
    (idStr : String)
    (huniq : (store.events.map (fun x => x.event_id)).Nodup) :
    (e ∈ store.events → mysqlStrToNat idStr = e.event_id → e.organizer_id = u.user_id →
       (handleDelete u idStr store).1.status = 200
       ∧ e ∉ (handleDelete u idStr store).2.events
       ∧ (∀ x ∈ store.events, x ≠ e → x ∈ (handleDelete u idStr store).2.events)
       ∧ (∀ x ∈ (handleDelete u idStr store).2.events, x ∈ store.events))
    ∧ (e ∈ store.events → mysqlStrToNat idStr = e.event_id → u.role = "admin" →
       (handleDelete u idStr store).1.status = 200
       ∧ e ∉ (handleDelete u idStr store).2.events
       ∧ (∀ x ∈ store.events, x ≠ e → x ∈ (handleDelete u idStr store).2.events)
       ∧ (∀ x ∈ (handleDelete u idStr store).2.events, x ∈ store.events))
    ∧ ((∀ x ∈ store.events,
          ¬(x.event_id = mysqlStrToNat idStr
            ∧ (u.role = "admin" ∨ x.organizer_id = u.user_id))) →
       handleDelete u idStr store
         = (⟨404, .errMsg "Event not found or unauthorized"⟩, store)) := by
  refine ⟨?_, ?_, ?_⟩
  · intro he hid horg
    have hhit : deleteHit u (mysqlStrToNat idStr) e = true := by
      simp [deleteHit, hid, horg]
    have honly : ∀ x ∈ store.events, x ≠ e →
        deleteHit u (mysqlStrToNat idStr) x = false := by
      intro x hx hxe
      by_cases hxid : x.event_id = e.event_id
      · exact absurd (List.inj_on_of_nodup_map huniq hx he hxid) hxe
      · simp [deleteHit, hid, hxid]
    exact handleDelete_removes u idStr store e he hhit honly
  · intro he hid hadm
    have hhit : deleteHit u (mysqlStrToNat idStr) e = true := by
      simp [deleteHit, hid, hadm]
    have honly : ∀ x ∈ store.events, x ≠ e →
        deleteHit u (mysqlStrToNat idStr) x = false := by
      intro x hx hxe
      by_cases hxid : x.event_id = e.event_id
      · exact absurd (List.inj_on_of_nodup_map huniq hx he hxid) hxe
      · simp [deleteHit, hid, hadm, hxid]
    exact handleDelete_removes u idStr store e he hhit honly
  · intro hall
    have hnone : ∀ x ∈ store.events, deleteHit u (mysqlStrToNat idStr) x = false := by
      intro x hx
      have hnx := hall x hx
      by_cases hadm : u.role = "admin"
      · have hform : deleteHit u (mysqlStrToNat idStr) x
            = (x.event_id == mysqlStrToNat idStr) := by
          simp [deleteHit, hadm]
        rw [hform]
        exact beq_eq_false_iff_ne.mpr (fun heq => hnx ⟨heq, Or.inl hadm⟩)
      · have hform : deleteHit u (mysqlStrToNat idStr) x
            = (x.event_id == mysqlStrToNat idStr && x.organizer_id == u.user_id) := by
          simp [deleteHit, hadm]
        rw [hform]
        cases hxid : (x.event_id == mysqlStrToNat idStr) with
        | false => simp
        | true =>
          simp only [Bool.true_and]
          exact beq_eq_false_iff_ne.mpr
            (fun ho => hnx ⟨beq_iff_eq.mp hxid, Or.inr ho⟩)
    have hfilter : store.events.filter
        (fun x => !(deleteHit u (mysqlStrToNat idStr) x)) = store.events :=
      List.filter_eq_self.mpr (fun a ha => by rw [hnone a ha]; rfl)
    unfold handleDelete
    rw [hfilter]
    simp

/-- Witness for C5: the owning organizer (role "attendee", showing role
independence) deletes event 1 from the demo store; a stranger gets the
collapsed 404 and an unchanged store. -/
theorem delete_owner_admin_authorization_witness :
  (handleDelete ⟨1, "attendee"⟩ "1" demoStore).1.status = 200
  ∧ demoEvent ∉ (handleDelete ⟨1, "attendee"⟩ "1" demoStore).2.events
  ∧ handleDelete ⟨9, "attendee"⟩ "1" demoStore
      = (⟨404, .errMsg "Event not found or unauthorized"⟩, demoStore) :=
  let h1 := delete_owner_admin_authorization demoStore ⟨1, "attendee"⟩ demoEvent "1"
    (by decide)
  let h2 := delete_owner_admin_authorization demoStore ⟨9, "attendee"⟩ demoEvent "1"
    (by decide)
  ⟨(h1.1 (by decide) (by decide) rfl).1,
   (h1.1 (by decide) (by decide) rfl).2.1,
   h2.2.2 (by decide)⟩

lemma filter_head_unique {p : Event → Bool} {l : List Event} {e : Event}
    (he : e ∈ l) (hpe : p e = true) (huniq : ∀ x ∈ l, p x = true → x = e) :
    ∃ t, l.filter p = e :: t := by
  induction l with
  | nil => cases he
  | cons a l ih =>
    by_cases hpa : p a = true
    · have hae : a = e := huniq a (List.mem_cons_self a l) hpa
      subst hae
      exact ⟨l.filter p, by rw [List.filter_cons_of_pos hpa]⟩
    · have hea : e ≠ a := fun h => hpa (h ▸ hpe)
      have he' : e ∈ l := by
        rcases List.mem_cons.mp he with h | h
        · exact absurd h hea
        · exact h
      obtain ⟨t, ht⟩ :=
        ih he' (fun x hx hpx => huniq x (List.mem_cons_of_mem a hx) hpx)
      exact ⟨t, by rw [List.filter_cons_of_neg hpa, ht]⟩

lemma filterMap_join_forall2 (users : List User) (l : List Booking)
    (h : ∀ b ∈ l, ∃ usr ∈ users, usr.user_id = b.user_id) :
    List.Forall₂ (fun b r => ∃ usr ∈ users, usr.user_id = b.user_id
        ∧ r = AttendeeRow.mk usr.name usr.email b.booking_date b.status)
      l (l.filterMap (fun b => (users.find? (fun u => u.user_id == b.user_id)).map
          (fun u => AttendeeRow.mk u.name u.email b.booking_date b.status))) := by
  induction l with
  | nil => exact List.Forall₂.nil
  | cons b t ih =>
    obtain ⟨usr, hmem, hid⟩ := h b (List.mem_cons_self b t)
    have hsome : (users.find? (fun u => u.user_id == b.user_id)).isSome := by
      rw [List.find?_isSome]
      exact ⟨usr, hmem, by simp [hid]⟩
    obtain ⟨u', hu'⟩ := Option.isSome_iff_exists.mp hsome
    have hfb : (users.find? (fun u => u.user_id == b.user_id)).map
        (fun u => AttendeeRow.mk u.name u.email b.booking_date b.status)
        = some (AttendeeRow.mk u'.name u'.email b.booking_date b.status) := by
      rw [hu']
      rfl
    have hid' : u'.user_id = b.user_id := by
      have hp := List.find?_some hu'
      simpa using hp
    rw [List.filterMap_cons, hfb]
    exact List.Forall₂.cons
      ⟨u', List.mem_of_find?_eq_some hu', hid', rfl⟩
      (ih (fun x hx => h x (List.mem_cons_of_mem b hx)))

/-- Claim C8: for an owned event (under referential integrity of the
bookings-to-users join) the roster answer carries the event, one
attendee row per booking of that event — with the user's name and
email and the booking's date and status — and a total revenue equal to
the attendee count times the event's price. -/
theorem attendees_roster_and_revenue (store : Store) (u : AuthUser) (e : Event)
    (idStr : String)
    (huniq : (store.events.map (fun x => x.event_id)).Nodup)
    (he : e ∈ store.events) (hid : mysqlStrToNat idStr = e.event_id)
    (horg : e.organizer_id = u.user_id)
    (hri : ∀ b ∈ store.bookings, b.event_id = e.event_id →
        ∃ usr ∈ store.users, usr.user_id = b.user_id) :
    handleAttendees u idStr store
      = ⟨200, .attendeesPayload e (attendeesRows store e.event_id)
          (((attendeesRows store e.event_id).length : Int) * e.price)⟩
    ∧ (attendeesRows store e.event_id).length = bookingCount store e.event_id
    ∧ List.Forall₂ (fun b r => ∃ usr ∈ store.users, usr.user_id = b.user_id
          ∧ r = AttendeeRow.mk usr.name usr.email b.booking_date b.status)
        (eventBookings store e.event_id) (attendeesRows store e.event_id) := by
  have hf2 : List.Forall₂ (fun b r => ∃ usr ∈ store.users, usr.user_id = b.user_id
        ∧ r = AttendeeRow.mk usr.name usr.email b.booking_date b.status)
      (eventBookings store e.event_id) (attendeesRows store e.event_id) :=
    filterMap_join_forall2 store.users (eventBookings store e.event_id)
      (fun b hb => hri b (List.mem_filter.mp hb).1
        (beq_iff_eq.mp (List.mem_filter.mp hb).2))
  refine ⟨?_, hf2.length_eq.symm, hf2⟩
  have hpe : (fun x : Event =>
      x.event_id == mysqlStrToNat idStr && x.organizer_id == u.user_id) e = true := by
    simp [hid, horg]
  have huq : ∀ x ∈ store.events, (fun x : Event =>
      x.event_id == mysqlStrToNat idStr && x.organizer_id == u.user_id) x = true
      → x = e := by
    intro x hx hpx
    simp only [Bool.and_eq_true, beq_iff_eq] at hpx
    exact List.inj_on_of_nodup_map huniq hx he (by rw [hpx.1, hid])
  obtain ⟨t, hft⟩ := filter_head_unique he hpe huq
  rw [hid] at hft
  simp only [handleAttendees, hid, hft]

/-- Demo fixture: a store satisfying referential integrity, with two
bookings of event 1 (one of them cancelled) by two known users. -/
def w8Store : Store :=
  ⟨[wOverEvent],
   [⟨1, 1, 2, "2026-05-01", "confirmed"⟩, ⟨2, 1, 3, "2026-05-02", "cancelled"⟩],
   [⟨2, "Asha", "asha@example.com", "attendee"⟩,
    ⟨3, "Ravi", "ravi@example.com", "attendee"⟩]⟩

/-- Witness for C8 on the integral demo store. -/
theorem attendees_roster_and_revenue_witness :
  handleAttendees ⟨1, "organizer"⟩ "1" w8Store
      = ⟨200, .attendeesPayload wOverEvent (attendeesRows w8Store wOverEvent.event_id)
          (((attendeesRows w8Store wOverEvent.event_id).length : Int) * wOverEvent.price)⟩
  ∧ (attendeesRows w8Store wOverEvent.event_id).length
      = bookingCount w8Store wOverEvent.event_id :=
  let h := attendees_roster_and_revenue w8Store ⟨1, "organizer"⟩ wOverEvent "1"
    (by decide) (by decide) (by decide) (by decide) (by decide)
  ⟨h.1, h.2.1⟩

/-- Two booking rows that agree on everything except possibly status. -/
def sameExceptStatus (b b' : Booking) : Prop :=
  b.booking_id = b'.booking_id ∧ b.event_id = b'.event_id
  ∧ b.user_id = b'.user_id ∧ b.booking_date = b'.booking_date

/-- Demo fixture: a one-booking store parameterized by that booking's
status. -/
def cStore (st : String) : Store :=
  ⟨[wOverEvent],
   [⟨1, 1, 2, "2026-05-01", st⟩],
   [⟨2, "Asha", "asha@example.com", "attendee"⟩]⟩

/-- Claim C10 counterexample: two stores whose single bookings differ
only in status produce different attendee payloads — each roster row
carries the booking's status field, so the returned attendees are not
identical. -/
theorem cancelled_status_changes_attendee_payload :
  (cStore "confirmed").events = (cStore "cancelled").events
  ∧ (cStore "confirmed").users = (cStore "cancelled").users
  ∧ List.Forall₂ sameExceptStatus (cStore "confirmed").bookings
      (cStore "cancelled").bookings
  ∧ handleAttendees ⟨1, "organizer"⟩ "1" (cStore "confirmed")
      ≠ handleAttendees ⟨1, "organizer"⟩ "1" (cStore "cancelled") := by
  refine ⟨rfl, rfl, ?_, by decide⟩
  exact List.Forall₂.cons ⟨rfl, rfl, rfl, rfl⟩ List.Forall₂.nil

lemma forall2_bookingCount {l1 l2 : List Booking} (eid : Nat)
    (h : List.Forall₂ sameExceptStatus l1 l2) :
    (l1.filter (fun b => b.event_id == eid)).length
      = (l2.filter (fun b => b.event_id == eid)).length := by
  induction h with
  | nil => rfl
  | @cons a b t1 t2 hr ht ih =>
    obtain ⟨-, he, -, -⟩ := hr
    rw [List.filter_cons, List.filter_cons, he]
    by_cases hc : (b.event_id == eid) = true
    · simp [hc, ih]
    · simp [hc, ih]

lemma forall2_attendees (users : List User) {l1 l2 : List Booking} (eid : Nat)
    (h : List.Forall₂ sameExceptStatus l1 l2) :
    List.Forall₂ (fun r r' : AttendeeRow =>
        r.name = r'.name ∧ r.email = r'.email ∧ r.booking_date = r'.booking_date)
      ((l1.filter (fun b => b.event_id == eid)).filterMap (fun b =>
        (users.find? (fun u => u.user_id == b.user_id)).map
          (fun u => AttendeeRow.mk u.name u.email b.booking_date b.status)))
      ((l2.filter (fun b => b.event_id == eid)).filterMap (fun b =>
        (users.find? (fun u => u.user_id == b.user_id)).map
          (fun u => AttendeeRow.mk u.name u.email b.booking_date b.status))) := by
  induction h with
  | nil => exact List.Forall₂.nil
  | @cons a b t1 t2 hr ht ih =>
    obtain ⟨hbid, he, huid, hdate⟩ := hr
    rw [List.filter_cons, List.filter_cons, he]
    by_cases hc : (b.event_id == eid) = true
    · rw [if_pos hc, if_pos hc, List.filterMap_cons, List.filterMap_cons]
      cases hf : users.find? (fun u => u.user_id == b.user_id) with
      | none =>
        have hfa : users.find? (fun u => u.user_id == a.user_id) = none := by
          rw [huid]
          exact hf
        simp only [hfa, hf, Option.map_none']
        exact ih
      | some u' =>
        have hfa : users.find? (fun u => u.user_id == a.user_id) = some u' := by
          rw [huid]
          exact hf
        simp only [hfa, hf, Option.map_some']
        exact List.Forall₂.cons ⟨rfl, rfl, hdate⟩ ih
    · rw [if_neg hc, if_neg hc]
      exact ih

/-- Claim C10 amended: when two stores agree on events and users and
their bookings differ only in status fields, the booking counts, the
computed available_seats, the whole public listing, the attendee count,
the name/email/booking-date content of every roster row and the
computed revenue all coincide; only the status field inside each roster
row follows the bookings. -/
theorem status_invariance_amended (s1 s2 : Store)
    (hev : s1.events = s2.events) (hus : s1.users = s2.users)
    (hb : List.Forall₂ sameExceptStatus s1.bookings s2.bookings) :
    (∀ eid, bookingCount s1 eid = bookingCount s2 eid)
    ∧ (∀ e, availableSeats s1 e = availableSeats s2 e)
    ∧ (∀ location dateFilter,
        listEvents location dateFilter s1 = listEvents location dateFilter s2)
    ∧ (∀ eid, List.Forall₂ (fun r r' : AttendeeRow =>
        r.name = r'.name ∧ r.email = r'.email ∧ r.booking_date = r'.booking_date)
        (attendeesRows s1 eid) (attendeesRows s2 eid))
    ∧ (∀ eid, (attendeesRows s1 eid).length = (attendeesRows s2 eid).length)
    ∧ (∀ eid (p : Int), ((attendeesRows s1 eid).length : Int) * p
        = ((attendeesRows s2 eid).length : Int) * p) := by
  have hbc : ∀ eid, bookingCount s1 eid = bookingCount s2 eid :=
    fun eid => forall2_bookingCount eid hb
  have hav : ∀ e, availableSeats s1 e = availableSeats s2 e := by
    intro e
    unfold availableSeats
    rw [hbc]
  have hatt : ∀ eid, List.Forall₂ (fun r r' : AttendeeRow =>
      r.name = r'.name ∧ r.email = r'.email ∧ r.booking_date = r'.booking_date)
      (attendeesRows s1 eid) (attendeesRows s2 eid) := by
    intro eid
    unfold attendeesRows eventBookings
    rw [hus]
    exact forall2_attendees s2.users eid hb
  have hlen : ∀ eid, (attendeesRows s1 eid).length = (attendeesRows s2 eid).length :=
    fun eid => (hatt eid).length_eq
  refine ⟨hbc, hav, ?_, hatt, hlen, fun eid p => by rw [hlen]⟩
  intro location dateFilter
  unfold listEvents
  rw [← hev]
  exact List.map_congr_left (fun a _ => by rw [hav])

/-- Witness for the amended C10 statement on the two one-booking demo
stores. -/
theorem status_invariance_amended_witness :
  availableSeats (cStore "confirmed") wOverEvent
      = availableSeats (cStore "cancelled") wOverEvent
  ∧ (attendeesRows (cStore "confirmed") 1).length
      = (attendeesRows (cStore "cancelled") 1).length :=
  let h := status_invariance_amended (cStore "confirmed") (cStore "cancelled") rfl rfl
    (List.Forall₂.cons ⟨rfl, rfl, rfl, rfl⟩ List.Forall₂.nil)
  ⟨h.2.1 wOverEvent, h.2.2.2.2.1 1⟩

end EventsApi
